import Mathlib

/-!
Shallow embedding of the 5-channel IR flame detector
(`src/src/IRFlameSensor.cpp`, `src/include/IRFlameSensor.h`).

Machine integers are modelled as `Nat` (with explicit `% 2^w` where the
C code truncates), `float` fields as `ℚ`, and the `millis()` monotonic
clock as an explicit `now : ℕ` argument threaded through each update
cycle (within one cycle the clock is treated as constant).  The
analog-input hardware (`analogReadMilliVolts`) is abstracted as a
function `analog : ℕ → ℕ → ℕ` giving the millivolt value of sample `j`
on channel `c`.
-/

-- Configuration constants from `IRFlameSensor.h`.

abbrev IR_NUM_CHANNELS : ℕ := 5

abbrev OVERSAMPLING_SAMPLES : ℕ := 64

abbrev EMA_ALPHA : ℚ := 1 / 100

abbrev SENSITIVITY_MARGIN : ℕ := 300

abbrev AMBIENT_INTERFERENCE_MIN : ℕ := 4

abbrev TEMPORAL_VERIFICATION_MS : ℕ := 500

abbrev FLAME_DETECTION_UPDATE_MS : ℕ := 50

/-- Unsigned 32-bit subtraction `a - b` as computed on `unsigned long`
values (wraps modulo `2^32`); used for all elapsed-time computations. -/
def ulSub (a b : ℕ) : ℕ :=
  (a + (2 ^ 32 - b % 2 ^ 32)) % 2 ^ 32

/-- The `FlameDetectionState` enum. -/
inductive FlameDetectionState where
  | FLAME_IDLE
  | FLAME_POTENTIAL
  | FLAME_DETECTED
  | FLAME_AMBIENT_INTERFERENCE
deriving DecidableEq, Repr

open FlameDetectionState

/-- The per-channel record `IRChannelData`. -/
structure IRChannelData where
  rawMilliVolts : ℕ
  baseline : ℚ
  deviation : ℚ
  isSpike : Bool
  lastSpikeTime : ℕ
deriving DecidableEq, Repr

/-- The detector's state: the private fields of class `IRFlameSensor`. -/
structure IRFlameSensor where
  channels : Fin IR_NUM_CHANNELS → IRChannelData
  currentState : FlameDetectionState
  potentialFlameStartTime : ℕ
  sensitivityMargin : ℕ
  lastUpdateTime : ℕ

/-- The constructor `IRFlameSensor::IRFlameSensor()`: state `FLAME_IDLE`,
timestamps `0`, default sensitivity margin, all channels zeroed. -/
def IRFlameSensor.initial : IRFlameSensor :=
  { channels := fun _ =>
      { rawMilliVolts := 0, baseline := 0, deviation := 0,
        isSpike := false, lastSpikeTime := 0 }
    currentState := FLAME_IDLE
    potentialFlameStartTime := 0
    sensitivityMargin := SENSITIVITY_MARGIN
    lastUpdateTime := 0 }

/-- `IRFlameSensor::readChannelMilliVolts`: out-of-range channel yields
`0`; otherwise the mean of `OVERSAMPLING_SAMPLES` analog readings,
truncated by the cast to `uint16_t`.  A pure function of the analog
source: it touches no detector field and signals no error. -/
def IRFlameSensor.readChannelMilliVolts (analog : ℕ → ℕ → ℕ) (channel : ℕ) : ℕ :=
  if IR_NUM_CHANNELS ≤ channel then 0
  else
    (((List.range OVERSAMPLING_SAMPLES).map (analog channel)).sum
        / OVERSAMPLING_SAMPLES) % 2 ^ 16

/-- Step 1 of `IRFlameSensor::update`: store one oversampled reading
into each channel's `rawMilliVolts`. -/
def IRFlameSensor.sampleChannels (s : IRFlameSensor) (analog : ℕ → ℕ → ℕ) :
    IRFlameSensor :=
  { s with channels := fun i =>
      { s.channels i with
          rawMilliVolts := IRFlameSensor.readChannelMilliVolts analog (i : ℕ) } }

/-- `IRFlameSensor::updateBaselines`: per channel, EMA update of the
baseline, recomputation of the deviation, and the spike flag
`deviation > sensitivityMargin`. -/
def IRFlameSensor.updateBaselines (s : IRFlameSensor) : IRFlameSensor :=
  { s with channels := fun i =>
      let c := s.channels i
      let newBaseline : ℚ :=
        EMA_ALPHA * (c.rawMilliVolts : ℚ) + (1 - EMA_ALPHA) * c.baseline
      let newDeviation : ℚ := (c.rawMilliVolts : ℚ) - newBaseline
      { c with
          baseline := newBaseline
          deviation := newDeviation
          isSpike := decide ((s.sensitivityMargin : ℚ) < newDeviation) } }

/-- The vector of per-channel spike flags read by the spatial-voting
helpers. -/
def IRFlameSensor.spikeFlags (s : IRFlameSensor) : Fin IR_NUM_CHANNELS → Bool :=
  fun i => (s.channels i).isSpike

/-- Loop of `IRFlameSensor::countActiveSpikes` on an arbitrary flag
vector. -/
def countSpikeFlags (v : Fin IR_NUM_CHANNELS → Bool) : ℕ :=
  ((List.finRange IR_NUM_CHANNELS).filter v).length

/-- `IRFlameSensor::countActiveSpikes`. -/
def IRFlameSensor.countActiveSpikes (s : IRFlameSensor) : ℕ :=
  countSpikeFlags s.spikeFlags

/-- Body of `IRFlameSensor::isPointSource` on an arbitrary flag vector:
one spike, or two spikes on adjacent channels (the loop scans pairs
`(i, i+1)` for `i = 0..3`). -/
def pointSourceOfFlags (v : Fin IR_NUM_CHANNELS → Bool) : Bool :=
  if countSpikeFlags v = 1 then true
  else if countSpikeFlags v = 2 then
    (List.finRange 4).any (fun i => v i.castSucc && v i.succ)
  else false

/-- `IRFlameSensor::isPointSource`. -/
def IRFlameSensor.isPointSource (s : IRFlameSensor) : Bool :=
  pointSourceOfFlags s.spikeFlags

/-- Body of `IRFlameSensor::isAmbientInterference` on an arbitrary flag
vector: at least `AMBIENT_INTERFERENCE_MIN` simultaneous spikes. -/
def ambientOfFlags (v : Fin IR_NUM_CHANNELS → Bool) : Bool :=
  decide (AMBIENT_INTERFERENCE_MIN ≤ countSpikeFlags v)

/-- `IRFlameSensor::isAmbientInterference`. -/
def IRFlameSensor.isAmbientInterference (s : IRFlameSensor) : Bool :=
  ambientOfFlags s.spikeFlags

/-- `IRFlameSensor::evaluateSpatialPattern` (the `millis()` read for the
timestamp is the cycle clock `now`). -/
def IRFlameSensor.evaluateSpatialPattern (s : IRFlameSensor) (now : ℕ) :
    IRFlameSensor :=
  if s.countActiveSpikes = 0 then
    if s.currentState = FLAME_POTENTIAL then
      { s with currentState := FLAME_IDLE, potentialFlameStartTime := 0 }
    else s
  else if s.isAmbientInterference = true then
    { s with currentState := FLAME_AMBIENT_INTERFERENCE,
             potentialFlameStartTime := 0 }
  else if s.isPointSource = true then
    { s with currentState := FLAME_POTENTIAL,
             potentialFlameStartTime :=
               if s.potentialFlameStartTime = 0 then now
               else s.potentialFlameStartTime }
  else s

/-- `IRFlameSensor::evaluateTemporal`: promote `FLAME_POTENTIAL` to
`FLAME_DETECTED` once the unsigned elapsed time reaches the persistence
threshold. -/
def IRFlameSensor.evaluateTemporal (s : IRFlameSensor) (now : ℕ) :
    IRFlameSensor :=
  if s.currentState = FLAME_POTENTIAL then
    if TEMPORAL_VERIFICATION_MS ≤ ulSub now s.potentialFlameStartTime then
      { s with currentState := FLAME_DETECTED }
    else s
  else s

/-- `IRFlameSensor::update`: rate gate, then sample, baseline update,
spatial voting and temporal verification in order. -/
def IRFlameSensor.update (s : IRFlameSensor) (now : ℕ)
    (analog : ℕ → ℕ → ℕ) : IRFlameSensor :=
  if ulSub now s.lastUpdateTime < FLAME_DETECTION_UPDATE_MS then s
  else
    IRFlameSensor.evaluateTemporal
      (IRFlameSensor.evaluateSpatialPattern
        (IRFlameSensor.updateBaselines
          (IRFlameSensor.sampleChannels { s with lastUpdateTime := now } analog))
        now)
      now

/-- `IRFlameSensor::getChannelData`: `nullptr` (here `none`) for an
out-of-range index, otherwise the channel record. -/
def IRFlameSensor.getChannelData (s : IRFlameSensor) (channel : ℕ) :
    Option IRChannelData :=
  if h : channel < IR_NUM_CHANNELS then some (s.channels ⟨channel, h⟩)
  else none

/-- `IRFlameSensor::setSensitivityMargin`. -/
def IRFlameSensor.setSensitivityMargin (s : IRFlameSensor) (margin : ℕ) :
    IRFlameSensor :=
  { s with sensitivityMargin := margin }

/-- `IRFlameSensor::resetBaselines`: zero every baseline, clear spike
flags and spike times, force `FLAME_IDLE`, clear the persistence
timer. -/
def IRFlameSensor.resetBaselines (s : IRFlameSensor) : IRFlameSensor :=
  { s with
    channels := fun i =>
      { s.channels i with baseline := 0, isSpike := false, lastSpikeTime := 0 },
    currentState := FLAME_IDLE,
    potentialFlameStartTime := 0 }

/-- A flag vector assembled from five booleans. -/
def flagsOf (b0 b1 b2 b3 b4 : Bool) : Fin IR_NUM_CHANNELS → Bool :=
  fun i => [b0, b1, b2, b3, b4].get i

/-- Concrete sensor with exactly one spiking channel (channel 2). -/
def wSensorC1 : IRFlameSensor :=
  { IRFlameSensor.initial with
    channels := fun i =>
      { rawMilliVolts := 0, baseline := 0, deviation := 0,
        isSpike := decide ((i : ℕ) = 2), lastSpikeTime := 0 } }

/-- Concrete sensor in state `FLAME_POTENTIAL` stamped at time 100. -/
def wSensorC2 : IRFlameSensor :=
  { IRFlameSensor.initial with
    currentState := FLAME_POTENTIAL, potentialFlameStartTime := 100 }

/-- Concrete sensor in state `FLAME_POTENTIAL` with no spikes. -/
def wSensorC5 : IRFlameSensor :=
  { IRFlameSensor.initial with
    currentState := FLAME_POTENTIAL, potentialFlameStartTime := 77 }

/-- Concrete sensor last updated at time 10. -/
def wSensorC7 : IRFlameSensor :=
  { IRFlameSensor.initial with lastUpdateTime := 10 }

/-- The implicit invariant of C10: in `FLAME_IDLE` or
`FLAME_AMBIENT_INTERFERENCE` the persistence timestamp is the unset
sentinel `0`. -/
def StateInv (s : IRFlameSensor) : Prop :=
  s.currentState = FLAME_IDLE ∨ s.currentState = FLAME_AMBIENT_INTERFERENCE →
    s.potentialFlameStartTime = 0

/-- States reached by a sequence of `update` calls; each entry of the
input list is the `millis()` value and the analog source for one call. -/
def traceStates (s : IRFlameSensor) :
    List (ℕ × (ℕ → ℕ → ℕ)) → List IRFlameSensor
  | [] => []
  | (t, a) :: rest =>
      IRFlameSensor.update s t a ::
        traceStates (IRFlameSensor.update s t a) rest

/-- Every call in the sequence passes the rate gate and, after its
baseline update, has at least `AMBIENT_INTERFERENCE_MIN` spiking
channels. -/
def allAmbientCycles (s : IRFlameSensor) :
    List (ℕ × (ℕ → ℕ → ℕ)) → Bool
  | [] => true
  | (t, a) :: rest =>
      decide (¬ ulSub t s.lastUpdateTime < FLAME_DETECTION_UPDATE_MS) &&
      decide (AMBIENT_INTERFERENCE_MIN ≤
        IRFlameSensor.countActiveSpikes
          (IRFlameSensor.updateBaselines
            (IRFlameSensor.sampleChannels { s with lastUpdateTime := t } a))) &&
      allAmbientCycles (IRFlameSensor.update s t a) rest

/-- Concrete sensor in state `FLAME_POTENTIAL` stamped at time 1. -/
def cSensorC4 : IRFlameSensor :=
  { IRFlameSensor.initial with
    currentState := FLAME_POTENTIAL, potentialFlameStartTime := 1 }

/-- Analog source lighting up channels 0, 1 and 2 only. -/
def cAnalogC4 : ℕ → ℕ → ℕ := fun c _ => if c < 3 then 1000 else 0

/-- One baseline-tracker cycle with every channel fed the constant raw
reading `v`: the raw readings are pinned to `v` and the source's
`updateBaselines` is applied. -/
def IRFlameSensor.feedConstant (v : ℕ) (s : IRFlameSensor) : IRFlameSensor :=
  IRFlameSensor.updateBaselines
    { s with channels := fun i => { s.channels i with rawMilliVolts := v } }

/-!  Helper lemmas: the spatial-voting helpers only read the five spike
flags, so decidable facts about them can be settled by enumerating the
32 flag vectors.  -/

theorem flagsOf_eta (v : Fin IR_NUM_CHANNELS → Bool) :
    flagsOf (v 0) (v 1) (v 2) (v 3) (v 4) = v := by
  funext i
  fin_cases i <;> rfl

theorem spatial_classification_flags :
    ∀ b0 b1 b2 b3 b4 : Bool,
      (countSpikeFlags (flagsOf b0 b1 b2 b3 b4) = 1 →
        pointSourceOfFlags (flagsOf b0 b1 b2 b3 b4) = true) ∧
      (countSpikeFlags (flagsOf b0 b1 b2 b3 b4) = 2 →
        (pointSourceOfFlags (flagsOf b0 b1 b2 b3 b4) = true ↔
          ∃ i j : Fin IR_NUM_CHANNELS,
            flagsOf b0 b1 b2 b3 b4 i = true ∧ flagsOf b0 b1 b2 b3 b4 j = true ∧
              (i : ℕ) + 1 = (j : ℕ))) ∧
      (AMBIENT_INTERFERENCE_MIN ≤ countSpikeFlags (flagsOf b0 b1 b2 b3 b4) →
        ambientOfFlags (flagsOf b0 b1 b2 b3 b4) = true) ∧
      (countSpikeFlags (flagsOf b0 b1 b2 b3 b4) = 0 →
        pointSourceOfFlags (flagsOf b0 b1 b2 b3 b4) = false ∧
          ambientOfFlags (flagsOf b0 b1 b2 b3 b4) = false) := by
  decide

theorem pointSource_count_flags :
    ∀ b0 b1 b2 b3 b4 : Bool,
      pointSourceOfFlags (flagsOf b0 b1 b2 b3 b4) = true →
        countSpikeFlags (flagsOf b0 b1 b2 b3 b4) ≠ 0 ∧
          ambientOfFlags (flagsOf b0 b1 b2 b3 b4) = false := by
  decide

/-- A sensor whose pattern is a point source has a nonzero spike count
and is not classified as ambient interference. -/
theorem isPointSource_facts (s : IRFlameSensor)
    (h : IRFlameSensor.isPointSource s = true) :
    IRFlameSensor.countActiveSpikes s ≠ 0 ∧
      IRFlameSensor.isAmbientInterference s = false := by
  have h2 := pointSource_count_flags (s.spikeFlags 0) (s.spikeFlags 1)
    (s.spikeFlags 2) (s.spikeFlags 3) (s.spikeFlags 4)
  rw [flagsOf_eta] at h2
  exact h2 h

/-- C1: with `k` the number of spiking channels, `k = 1` classifies as a
point source; `k = 2` classifies as a point source iff the two spiking
channel indices differ by exactly 1; `k ≥ 4` classifies as ambient
interference regardless of adjacency; `k = 0` yields neither a
point-source nor an ambient classification. -/
theorem C1_spatial_pattern_classification (s : IRFlameSensor) :
    (IRFlameSensor.countActiveSpikes s = 1 →
      IRFlameSensor.isPointSource s = true) ∧
    (IRFlameSensor.countActiveSpikes s = 2 →
      (IRFlameSensor.isPointSource s = true ↔
        ∃ i j : Fin IR_NUM_CHANNELS,
          (s.channels i).isSpike = true ∧ (s.channels j).isSpike = true ∧
            (i : ℕ) + 1 = (j : ℕ))) ∧
    (AMBIENT_INTERFERENCE_MIN ≤ IRFlameSensor.countActiveSpikes s →
      IRFlameSensor.isAmbientInterference s = true) ∧
    (IRFlameSensor.countActiveSpikes s = 0 →
      IRFlameSensor.isPointSource s = false ∧
        IRFlameSensor.isAmbientInterference s = false) := by
  have h := spatial_classification_flags (s.spikeFlags 0) (s.spikeFlags 1)
    (s.spikeFlags 2) (s.spikeFlags 3) (s.spikeFlags 4)
  rw [flagsOf_eta] at h
  exact h

theorem C1_spatial_pattern_classification_witness :
    IRFlameSensor.countActiveSpikes wSensorC1 = 1 ∧
      IRFlameSensor.isPointSource wSensorC1 = true :=
  ⟨by decide, (C1_spatial_pattern_classification wSensorC1).1 (by decide)⟩

/-- On a monotonic clock with values below `2^32`, the unsigned 32-bit
difference is the ordinary difference. -/
theorem ulSub_eq_of_le (a b : ℕ) (_hb : b < 2 ^ 32) (hle : b ≤ a)
    (hd : a - b < 2 ^ 32) : ulSub a b = a - b := by
  have hpow : (2 : ℕ) ^ 32 = 4294967296 := by norm_num
  unfold ulSub
  rw [hpow] at hd ⊢
  omega

/-- C2: in state `FLAME_POTENTIAL`, temporal verification transitions to
`FLAME_DETECTED` exactly when the elapsed time since
`potentialFlameStartTime` has reached the 500 ms persistence threshold;
below the threshold the sensor is left unchanged. -/
theorem C2_temporal_persistence (s : IRFlameSensor) (now : ℕ)
    (hstate : s.currentState = FLAME_POTENTIAL)
    (hb : s.potentialFlameStartTime < 2 ^ 32)
    (hle : s.potentialFlameStartTime ≤ now)
    (hd : now - s.potentialFlameStartTime < 2 ^ 32) :
    (TEMPORAL_VERIFICATION_MS ≤ now - s.potentialFlameStartTime →
      IRFlameSensor.evaluateTemporal s now =
        { s with currentState := FLAME_DETECTED }) ∧
    (now - s.potentialFlameStartTime < TEMPORAL_VERIFICATION_MS →
      IRFlameSensor.evaluateTemporal s now = s) := by
  have he : ulSub now s.potentialFlameStartTime =
      now - s.potentialFlameStartTime := ulSub_eq_of_le _ _ hb hle hd
  constructor
  · intro h
    simp [IRFlameSensor.evaluateTemporal, hstate, he, h]
  · intro h
    simp [IRFlameSensor.evaluateTemporal, hstate, he, Nat.not_le.mpr h]

theorem C2_temporal_persistence_witness :
    IRFlameSensor.evaluateTemporal wSensorC2 600 =
      { wSensorC2 with currentState := FLAME_DETECTED } :=
  (C2_temporal_persistence wSensorC2 600 rfl (by decide) (by decide)
    (by decide)).1 (by decide)

/-- C5: on a cycle with zero spiking channels, a `FLAME_POTENTIAL` state
drops to `FLAME_IDLE` with the persistence timer cleared to the unset
sentinel, while the other three states are left untouched by spatial
evaluation; and once the timer is unset, a later point-source cycle
stamps it afresh, so `FLAME_DETECTED` is only reachable after a full
persistence window from the new stamp. -/
theorem C5_zero_spikes_resets_potential (s : IRFlameSensor) (now : ℕ)
    (hk : IRFlameSensor.countActiveSpikes s = 0) :
    (s.currentState = FLAME_POTENTIAL →
      IRFlameSensor.evaluateSpatialPattern s now =
        { s with currentState := FLAME_IDLE, potentialFlameStartTime := 0 }) ∧
    (s.currentState = FLAME_IDLE ∨ s.currentState = FLAME_DETECTED ∨
        s.currentState = FLAME_AMBIENT_INTERFERENCE →
      IRFlameSensor.evaluateSpatialPattern s now = s) ∧
    (∀ (s' : IRFlameSensor) (t : ℕ), s'.potentialFlameStartTime = 0 →
      IRFlameSensor.isPointSource s' = true →
      (IRFlameSensor.evaluateSpatialPattern s' t).potentialFlameStartTime = t ∧
      ∀ u : ℕ,
        (IRFlameSensor.evaluateTemporal
            (IRFlameSensor.evaluateSpatialPattern s' t) u).currentState =
          FLAME_DETECTED →
        TEMPORAL_VERIFICATION_MS ≤ ulSub u t) := by
  refine ⟨fun h => ?_, fun h => ?_, fun s' t hp hps => ?_⟩
  · simp [IRFlameSensor.evaluateSpatialPattern, hk, h]
  · rcases h with h | h | h <;>
      simp [IRFlameSensor.evaluateSpatialPattern, hk, h]
  · obtain ⟨hk', hamb⟩ := isPointSource_facts s' hps
    have hsp : IRFlameSensor.evaluateSpatialPattern s' t =
        { s' with currentState := FLAME_POTENTIAL,
                  potentialFlameStartTime := t } := by
      simp [IRFlameSensor.evaluateSpatialPattern, hk', hamb, hps, hp]
    refine ⟨by rw [hsp], fun u hdet => ?_⟩
    rw [hsp] at hdet
    by_cases hu : TEMPORAL_VERIFICATION_MS ≤ ulSub u t
    · exact hu
    · simp [IRFlameSensor.evaluateTemporal, hu] at hdet

theorem C5_zero_spikes_resets_potential_witness :
    IRFlameSensor.evaluateSpatialPattern wSensorC5 9 =
      { wSensorC5 with currentState := FLAME_IDLE,
                       potentialFlameStartTime := 0 } :=
  (C5_zero_spikes_resets_potential wSensorC5 9 (by decide)).1 rfl

/-- C7: when strictly less than 50 ms has elapsed since the previous
successful update, `update` returns the sensor unchanged in every
field. -/
theorem C7_update_rate_gate (s : IRFlameSensor) (now : ℕ)
    (analog : ℕ → ℕ → ℕ)
    (hb : s.lastUpdateTime < 2 ^ 32)
    (hle : s.lastUpdateTime ≤ now)
    (hlt : now - s.lastUpdateTime < FLAME_DETECTION_UPDATE_MS) :
    IRFlameSensor.update s now analog = s := by
  have he : ulSub now s.lastUpdateTime = now - s.lastUpdateTime :=
    ulSub_eq_of_le _ _ hb hle (lt_trans hlt (by norm_num))
  simp [IRFlameSensor.update, he, hlt]

theorem C7_update_rate_gate_witness :
    IRFlameSensor.update wSensorC7 30 (fun _ _ => 0) = wSensorC7 :=
  C7_update_rate_gate wSensorC7 30 (fun _ _ => 0) (by decide) (by decide)
    (by decide)

/-- C8: `resetBaselines` is idempotent — applying it twice yields the
very same detector state as applying it once — and the reset state has
all baselines zero, state `FLAME_IDLE`, all spike flags false, and the
persistence timer unset. -/
theorem C8_reset_idempotent (s : IRFlameSensor) :
    IRFlameSensor.resetBaselines (IRFlameSensor.resetBaselines s) =
      IRFlameSensor.resetBaselines s ∧
    (∀ i : Fin IR_NUM_CHANNELS,
      ((IRFlameSensor.resetBaselines s).channels i).baseline = 0 ∧
      ((IRFlameSensor.resetBaselines s).channels i).isSpike = false) ∧
    (IRFlameSensor.resetBaselines s).currentState = FLAME_IDLE ∧
    (IRFlameSensor.resetBaselines s).potentialFlameStartTime = 0 :=
  ⟨rfl, fun _ => ⟨rfl, rfl⟩, rfl, rfl⟩

/-- C9: every channel index `≥ 5` gets the defensive defaults — a zero
millivolt reading and a null channel snapshot — with no error signalled
(both operations are total) and, being pure functions of their inputs,
no detector field modified. -/
theorem C9_out_of_range_channel (analog : ℕ → ℕ → ℕ) (s : IRFlameSensor)
    (channel : ℕ) (h : IR_NUM_CHANNELS ≤ channel) :
    IRFlameSensor.readChannelMilliVolts analog channel = 0 ∧
      IRFlameSensor.getChannelData s channel = none := by
  constructor
  · simp [IRFlameSensor.readChannelMilliVolts, h]
  · unfold IRFlameSensor.getChannelData
    rw [dif_neg (by omega)]

theorem C9_out_of_range_channel_witness :
    IRFlameSensor.readChannelMilliVolts (fun _ _ => 123) 7 = 0 ∧
      IRFlameSensor.getChannelData IRFlameSensor.initial 7 = none :=
  C9_out_of_range_channel (fun _ _ => 123) IRFlameSensor.initial 7 (by norm_num)

theorem StateInv_spatial (s : IRFlameSensor) (now : ℕ) (h : StateInv s) :
    StateInv (IRFlameSensor.evaluateSpatialPattern s now) := by
  unfold IRFlameSensor.evaluateSpatialPattern
  split_ifs with h0 h1 h2 h3 h4
  · intro _; rfl
  · exact h
  · intro _; rfl
  · intro hc; simp at hc
  · intro hc; simp at hc
  · exact h

theorem StateInv_temporal (s : IRFlameSensor) (now : ℕ) (h : StateInv s) :
    StateInv (IRFlameSensor.evaluateTemporal s now) := by
  unfold IRFlameSensor.evaluateTemporal
  split_ifs with h0 h1
  · intro hc; simp at hc
  · exact h
  · exact h

/-- C10: the timestamp/state invariant holds for the freshly constructed
detector and is preserved by `update`, `resetBaselines` and
`setSensitivityMargin`: a set persistence timestamp can coexist only
with the `FLAME_POTENTIAL` or `FLAME_DETECTED` states. -/
theorem C10_timestamp_state_invariant :
    StateInv IRFlameSensor.initial ∧
    (∀ (s : IRFlameSensor) (now : ℕ) (analog : ℕ → ℕ → ℕ), StateInv s →
      StateInv (IRFlameSensor.update s now analog)) ∧
    (∀ s : IRFlameSensor, StateInv (IRFlameSensor.resetBaselines s)) ∧
    (∀ (s : IRFlameSensor) (m : ℕ), StateInv s →
      StateInv (IRFlameSensor.setSensitivityMargin s m)) := by
  refine ⟨fun _ => rfl, fun s now analog h => ?_, fun s => fun _ => rfl,
    fun s m h => h⟩
  unfold IRFlameSensor.update
  split_ifs with hg
  · exact h
  · exact StateInv_temporal _ _ (StateInv_spatial _ _ h)

theorem C10_timestamp_state_invariant_witness :
    StateInv (IRFlameSensor.update IRFlameSensor.initial 100 (fun _ _ => 0)) :=
  C10_timestamp_state_invariant.2.1 IRFlameSensor.initial 100 (fun _ _ => 0)
    (fun _ => rfl)

theorem spatial_of_ambient (s : IRFlameSensor) (now : ℕ)
    (hk : AMBIENT_INTERFERENCE_MIN ≤ IRFlameSensor.countActiveSpikes s) :
    IRFlameSensor.evaluateSpatialPattern s now =
      { s with currentState := FLAME_AMBIENT_INTERFERENCE,
               potentialFlameStartTime := 0 } := by
  have hk4 : 4 ≤ IRFlameSensor.countActiveSpikes s := hk
  have hk0 : IRFlameSensor.countActiveSpikes s ≠ 0 := by omega
  have hamb : IRFlameSensor.isAmbientInterference s = true := decide_eq_true hk
  simp [IRFlameSensor.evaluateSpatialPattern, hk0, hamb]

theorem temporal_of_not_potential (s : IRFlameSensor) (now : ℕ)
    (h : s.currentState ≠ FLAME_POTENTIAL) :
    IRFlameSensor.evaluateTemporal s now = s := by
  simp [IRFlameSensor.evaluateTemporal, h]

/-- A gated update whose cycle shows at least 4 spiking channels lands
in `FLAME_AMBIENT_INTERFERENCE` with the timer cleared, whatever the
prior state. -/
theorem update_ambient_cycle (s : IRFlameSensor) (t : ℕ) (a : ℕ → ℕ → ℕ)
    (hg : ¬ ulSub t s.lastUpdateTime < FLAME_DETECTION_UPDATE_MS)
    (hk : AMBIENT_INTERFERENCE_MIN ≤
      IRFlameSensor.countActiveSpikes
        (IRFlameSensor.updateBaselines
          (IRFlameSensor.sampleChannels { s with lastUpdateTime := t } a))) :
    (IRFlameSensor.update s t a).currentState = FLAME_AMBIENT_INTERFERENCE ∧
    (IRFlameSensor.update s t a).potentialFlameStartTime = 0 := by
  unfold IRFlameSensor.update
  rw [if_neg hg, spatial_of_ambient _ _ hk, temporal_of_not_potential]
  · exact ⟨rfl, rfl⟩
  · simp

/-- C3: along any sequence of update calls in which every cycle passes
the rate gate and shows at least 4 spiking channels, every reached
state — the first one included — is `FLAME_AMBIENT_INTERFERENCE` with
the potential-start timestamp cleared, and is never
`FLAME_DETECTED`. -/
theorem C3_ambient_sequence (s : IRFlameSensor)
    (inputs : List (ℕ × (ℕ → ℕ → ℕ)))
    (h : allAmbientCycles s inputs = true) :
    ∀ s' ∈ traceStates s inputs,
      s'.currentState = FLAME_AMBIENT_INTERFERENCE ∧
      s'.potentialFlameStartTime = 0 ∧
      s'.currentState ≠ FLAME_DETECTED := by
  induction inputs generalizing s with
  | nil => intro s' hs'; simp [traceStates] at hs'
  | cons p rest ih =>
      obtain ⟨t, a⟩ := p
      simp only [allAmbientCycles, Bool.and_eq_true, decide_eq_true_eq] at h
      obtain ⟨⟨hg, hk⟩, hrest⟩ := h
      intro s' hs'
      rw [traceStates] at hs'
      rcases List.mem_cons.mp hs' with rfl | hs'
      · obtain ⟨h1, h2⟩ := update_ambient_cycle s t a hg hk
        refine ⟨h1, h2, ?_⟩
        rw [h1]
        simp
      · exact ih (IRFlameSensor.update s t a) hrest s' hs'

theorem C3_ambient_sequence_witness :
    (IRFlameSensor.update IRFlameSensor.initial 100
          (fun _ _ => 1000)).currentState = FLAME_AMBIENT_INTERFERENCE ∧
    (IRFlameSensor.update IRFlameSensor.initial 100
          (fun _ _ => 1000)).potentialFlameStartTime = 0 ∧
    (IRFlameSensor.update IRFlameSensor.initial 100
          (fun _ _ => 1000)).currentState ≠ FLAME_DETECTED :=
  C3_ambient_sequence IRFlameSensor.initial [(100, fun _ _ => 1000)]
    (by
      have h0 : IRFlameSensor.readChannelMilliVolts (fun _ _ => 1000) 0 = 1000 := by decide
      have h1 : IRFlameSensor.readChannelMilliVolts (fun _ _ => 1000) 1 = 1000 := by decide
      have h2 : IRFlameSensor.readChannelMilliVolts (fun _ _ => 1000) 2 = 1000 := by decide
      have h3 : IRFlameSensor.readChannelMilliVolts (fun _ _ => 1000) 3 = 1000 := by decide
      have h4 : IRFlameSensor.readChannelMilliVolts (fun _ _ => 1000) 4 = 1000 := by decide
      have hflags : (IRFlameSensor.updateBaselines
          (IRFlameSensor.sampleChannels
            { IRFlameSensor.initial with lastUpdateTime := 100 }
            (fun _ _ => 1000))).spikeFlags = flagsOf true true true true true := by
        funext i
        fin_cases i <;>
          simp [IRFlameSensor.spikeFlags, IRFlameSensor.updateBaselines,
            IRFlameSensor.sampleChannels, flagsOf, IRFlameSensor.initial,
            h0, h1, h2, h3, h4] <;> norm_num
      have hcount : IRFlameSensor.countActiveSpikes
          (IRFlameSensor.updateBaselines
            (IRFlameSensor.sampleChannels
              { IRFlameSensor.initial with lastUpdateTime := 100 }
              (fun _ _ => 1000))) = 5 := by
        show countSpikeFlags (IRFlameSensor.updateBaselines
          (IRFlameSensor.sampleChannels
            { IRFlameSensor.initial with lastUpdateTime := 100 }
            (fun _ _ => 1000))).spikeFlags = 5
        rw [hflags]
        decide
      simp only [allAmbientCycles, Bool.and_eq_true, decide_eq_true_eq]
      refine ⟨⟨by decide, ?_⟩, trivial⟩
      rw [hcount]
      norm_num)
    (IRFlameSensor.update IRFlameSensor.initial 100 (fun _ _ => 1000))
    (by simp [traceStates])

/-- Field-level description of one temporal-verification step. -/
theorem evaluateTemporal_fields (s : IRFlameSensor) (now : ℕ) :
    (IRFlameSensor.evaluateTemporal s now).currentState =
      (if s.currentState = FLAME_POTENTIAL ∧
          TEMPORAL_VERIFICATION_MS ≤ ulSub now s.potentialFlameStartTime
        then FLAME_DETECTED else s.currentState) ∧
    (IRFlameSensor.evaluateTemporal s now).potentialFlameStartTime =
      s.potentialFlameStartTime := by
  by_cases h1 : s.currentState = FLAME_POTENTIAL
  · by_cases h2 : TEMPORAL_VERIFICATION_MS ≤ ulSub now s.potentialFlameStartTime
    · simp [IRFlameSensor.evaluateTemporal, h1, h2]
    · simp [IRFlameSensor.evaluateTemporal, h1, h2]
  · simp [IRFlameSensor.evaluateTemporal, h1]

theorem cSensorC4_flags :
    (IRFlameSensor.updateBaselines
        (IRFlameSensor.sampleChannels
          { cSensorC4 with lastUpdateTime := 600 } cAnalogC4)).spikeFlags =
      flagsOf true true true false false := by
  have h0 : IRFlameSensor.readChannelMilliVolts cAnalogC4 0 = 1000 := by decide
  have h1 : IRFlameSensor.readChannelMilliVolts cAnalogC4 1 = 1000 := by decide
  have h2 : IRFlameSensor.readChannelMilliVolts cAnalogC4 2 = 1000 := by decide
  have h3 : IRFlameSensor.readChannelMilliVolts cAnalogC4 3 = 0 := by decide
  have h4 : IRFlameSensor.readChannelMilliVolts cAnalogC4 4 = 0 := by decide
  funext i
  fin_cases i <;>
    simp [IRFlameSensor.spikeFlags, IRFlameSensor.updateBaselines,
      IRFlameSensor.sampleChannels, flagsOf, cSensorC4, IRFlameSensor.initial,
      h0, h1, h2, h3, h4] <;> norm_num

theorem cSensorC4_count :
    IRFlameSensor.countActiveSpikes
      (IRFlameSensor.updateBaselines
        (IRFlameSensor.sampleChannels
          { cSensorC4 with lastUpdateTime := 600 } cAnalogC4)) = 3 := by
  show countSpikeFlags
    (IRFlameSensor.updateBaselines
      (IRFlameSensor.sampleChannels
        { cSensorC4 with lastUpdateTime := 600 } cAnalogC4)).spikeFlags = 3
  rw [cSensorC4_flags]
  decide

/-- C4 counterexample: a cycle with exactly three spiking channels on a
detector already in `FLAME_POTENTIAL` past the persistence window: the
spatial branch is the ambiguous one, yet the full update cycle changes
the state (to `FLAME_DETECTED`, via temporal verification), so the
state after the cycle differs from the state before it. -/
theorem C4_counterexample_three_spikes :
    IRFlameSensor.countActiveSpikes
        (IRFlameSensor.updateBaselines
          (IRFlameSensor.sampleChannels
            { cSensorC4 with lastUpdateTime := 600 } cAnalogC4)) = 3 ∧
    cSensorC4.currentState = FLAME_POTENTIAL ∧
    (IRFlameSensor.update cSensorC4 600 cAnalogC4).currentState =
      FLAME_DETECTED ∧
    (IRFlameSensor.update cSensorC4 600 cAnalogC4).currentState ≠
      cSensorC4.currentState := by
  have hpoint : IRFlameSensor.isPointSource
      (IRFlameSensor.updateBaselines
        (IRFlameSensor.sampleChannels
          { cSensorC4 with lastUpdateTime := 600 } cAnalogC4)) = false := by
    show pointSourceOfFlags
      (IRFlameSensor.updateBaselines
        (IRFlameSensor.sampleChannels
          { cSensorC4 with lastUpdateTime := 600 } cAnalogC4)).spikeFlags = false
    rw [cSensorC4_flags]
    decide
  have hamb : IRFlameSensor.isAmbientInterference
      (IRFlameSensor.updateBaselines
        (IRFlameSensor.sampleChannels
          { cSensorC4 with lastUpdateTime := 600 } cAnalogC4)) = false := by
    show ambientOfFlags
      (IRFlameSensor.updateBaselines
        (IRFlameSensor.sampleChannels
          { cSensorC4 with lastUpdateTime := 600 } cAnalogC4)).spikeFlags = false
    rw [cSensorC4_flags]
    decide
  have hk0 : IRFlameSensor.countActiveSpikes
      (IRFlameSensor.updateBaselines
        (IRFlameSensor.sampleChannels
          { cSensorC4 with lastUpdateTime := 600 } cAnalogC4)) ≠ 0 := by
    rw [cSensorC4_count]
    norm_num
  have hsp : IRFlameSensor.evaluateSpatialPattern
      (IRFlameSensor.updateBaselines
        (IRFlameSensor.sampleChannels
          { cSensorC4 with lastUpdateTime := 600 } cAnalogC4)) 600 =
      IRFlameSensor.updateBaselines
        (IRFlameSensor.sampleChannels
          { cSensorC4 with lastUpdateTime := 600 } cAnalogC4) := by
    simp [IRFlameSensor.evaluateSpatialPattern, hk0, hamb, hpoint]
  have hdet : (IRFlameSensor.update cSensorC4 600 cAnalogC4).currentState =
      FLAME_DETECTED := by
    unfold IRFlameSensor.update
    rw [if_neg (by decide), hsp]
    have hul : TEMPORAL_VERIFICATION_MS ≤ ulSub 600 1 := by decide
    simp [IRFlameSensor.evaluateTemporal, hul]
    rfl
  refine ⟨cSensorC4_count, rfl, hdet, ?_⟩
  rw [hdet]
  decide

/-- C4 (amended): on a gated cycle whose spike pattern is ambiguous
(exactly two non-adjacent spiking channels, or exactly three), the
spatial evaluator makes no transition and the potential-start
timestamp is unchanged; the state after the full cycle still equals the
prior state unless the prior state was `FLAME_POTENTIAL` with the
persistence threshold already elapsed, in which case temporal
verification promotes it to `FLAME_DETECTED`. -/
theorem C4_ambiguous_pattern_state (s : IRFlameSensor) (now : ℕ)
    (analog : ℕ → ℕ → ℕ)
    (hg : ¬ ulSub now s.lastUpdateTime < FLAME_DETECTION_UPDATE_MS)
    (hk : (IRFlameSensor.countActiveSpikes
            (IRFlameSensor.updateBaselines
              (IRFlameSensor.sampleChannels
                { s with lastUpdateTime := now } analog)) = 2 ∧
          IRFlameSensor.isPointSource
            (IRFlameSensor.updateBaselines
              (IRFlameSensor.sampleChannels
                { s with lastUpdateTime := now } analog)) = false) ∨
        IRFlameSensor.countActiveSpikes
          (IRFlameSensor.updateBaselines
            (IRFlameSensor.sampleChannels
              { s with lastUpdateTime := now } analog)) = 3) :
    (IRFlameSensor.update s now analog).currentState =
      (if s.currentState = FLAME_POTENTIAL ∧
          TEMPORAL_VERIFICATION_MS ≤ ulSub now s.potentialFlameStartTime
        then FLAME_DETECTED else s.currentState) ∧
    (IRFlameSensor.update s now analog).potentialFlameStartTime =
      s.potentialFlameStartTime := by
  have hcnt : IRFlameSensor.countActiveSpikes
      (IRFlameSensor.updateBaselines
        (IRFlameSensor.sampleChannels
          { s with lastUpdateTime := now } analog)) = 2 ∨
      IRFlameSensor.countActiveSpikes
        (IRFlameSensor.updateBaselines
          (IRFlameSensor.sampleChannels
            { s with lastUpdateTime := now } analog)) = 3 := by
    rcases hk with ⟨h2, _⟩ | h3
    exacts [Or.inl h2, Or.inr h3]
  have hpoint : IRFlameSensor.isPointSource
      (IRFlameSensor.updateBaselines
        (IRFlameSensor.sampleChannels
          { s with lastUpdateTime := now } analog)) = false := by
    rcases hk with ⟨_, hp⟩ | h3
    · exact hp
    · have h3' : countSpikeFlags
          (IRFlameSensor.updateBaselines
            (IRFlameSensor.sampleChannels
              { s with lastUpdateTime := now } analog)).spikeFlags = 3 := h3
      show pointSourceOfFlags
        (IRFlameSensor.updateBaselines
          (IRFlameSensor.sampleChannels
            { s with lastUpdateTime := now } analog)).spikeFlags = false
      unfold pointSourceOfFlags
      rw [h3']
      norm_num
  have hk0 : IRFlameSensor.countActiveSpikes
      (IRFlameSensor.updateBaselines
        (IRFlameSensor.sampleChannels
          { s with lastUpdateTime := now } analog)) ≠ 0 := by
    rcases hcnt with h | h <;> rw [h] <;> norm_num
  have hamb : IRFlameSensor.isAmbientInterference
      (IRFlameSensor.updateBaselines
        (IRFlameSensor.sampleChannels
          { s with lastUpdateTime := now } analog)) = false := by
    apply decide_eq_false
    rcases hcnt with h | h <;> rw [show countSpikeFlags
      (IRFlameSensor.updateBaselines
        (IRFlameSensor.sampleChannels
          { s with lastUpdateTime := now } analog)).spikeFlags = _ from h] <;>
      decide
  have hsp : IRFlameSensor.evaluateSpatialPattern
      (IRFlameSensor.updateBaselines
        (IRFlameSensor.sampleChannels
          { s with lastUpdateTime := now } analog)) now =
      IRFlameSensor.updateBaselines
        (IRFlameSensor.sampleChannels
          { s with lastUpdateTime := now } analog) := by
    simp [IRFlameSensor.evaluateSpatialPattern, hk0, hamb, hpoint]
  unfold IRFlameSensor.update
  rw [if_neg hg, hsp]
  exact evaluateTemporal_fields
    (IRFlameSensor.updateBaselines
      (IRFlameSensor.sampleChannels
        { s with lastUpdateTime := now } analog)) now

theorem C4_ambiguous_pattern_state_witness :
    (IRFlameSensor.update cSensorC4 600 cAnalogC4).currentState =
      (if cSensorC4.currentState = FLAME_POTENTIAL ∧
          TEMPORAL_VERIFICATION_MS ≤ ulSub 600 cSensorC4.potentialFlameStartTime
        then FLAME_DETECTED else cSensorC4.currentState) ∧
    (IRFlameSensor.update cSensorC4 600 cAnalogC4).potentialFlameStartTime =
      cSensorC4.potentialFlameStartTime :=
  C4_ambiguous_pattern_state cSensorC4 600 cAnalogC4 (by decide)
    (Or.inr cSensorC4_count)

theorem feedConstant_baseline (v : ℕ) (s : IRFlameSensor)
    (i : Fin IR_NUM_CHANNELS) :
    ((IRFlameSensor.feedConstant v s).channels i).baseline =
      EMA_ALPHA * (v : ℚ) + (1 - EMA_ALPHA) * ((s.channels i).baseline) := rfl

theorem feedConstant_closed_form (v : ℕ) (i : Fin IR_NUM_CHANNELS) :
    ∀ n : ℕ,
      ((((IRFlameSensor.feedConstant v)^[n]) IRFlameSensor.initial).channels
            i).baseline =
        (v : ℚ) * (1 - (1 - EMA_ALPHA) ^ n)
  | 0 => by simp [IRFlameSensor.initial]
  | n + 1 => by
      rw [Function.iterate_succ_apply', feedConstant_baseline,
        feedConstant_closed_form v i n]
      ring

/-- C6: a channel fed the constant raw reading `v` on every update from
baseline 0 has baseline `v·(1−(1−α)^n)` after `n` updates (α = 0.01),
and the baseline converges to `v` as `n → ∞`. -/
theorem C6_baseline_convergence (v : ℕ) (i : Fin IR_NUM_CHANNELS) :
    (∀ n : ℕ,
      ((((IRFlameSensor.feedConstant v)^[n]) IRFlameSensor.initial).channels
            i).baseline =
        (v : ℚ) * (1 - (1 - EMA_ALPHA) ^ n)) ∧
    Filter.Tendsto
      (fun n : ℕ =>
        (((((IRFlameSensor.feedConstant v)^[n]) IRFlameSensor.initial).channels
              i).baseline : ℝ))
      Filter.atTop (nhds (v : ℝ)) := by
  refine ⟨feedConstant_closed_form v i, ?_⟩
  have hfun : ∀ n : ℕ,
      (((((IRFlameSensor.feedConstant v)^[n]) IRFlameSensor.initial).channels
            i).baseline : ℝ) =
        (v : ℝ) * (1 - (1 - 1 / 100 : ℝ) ^ n) := by
    intro n
    rw [feedConstant_closed_form v i n]
    push_cast
    norm_num
  have hpow : Filter.Tendsto (fun n : ℕ => ((1 : ℝ) - 1 / 100) ^ n)
      Filter.atTop (nhds 0) := by
    apply tendsto_pow_atTop_nhds_zero_of_lt_one <;> norm_num
  have hmain : Filter.Tendsto
      (fun n : ℕ => (v : ℝ) * (1 - (1 - 1 / 100 : ℝ) ^ n))
      Filter.atTop (nhds ((v : ℝ) * (1 - 0))) :=
    (hpow.const_sub 1).const_mul (v : ℝ)
  have := hmain.congr (fun n => (hfun n).symm)
  simpa using this
